import Mathlib

/-!
Verification development for the sfepy linear-solver adapter layer
(sfepy/solvers/ls.py): ScipyDirect (and the legacy Umfpack subclass),
ScipyIterative, PyAMGSolver and PETScKrylovSolver.

Modelling conventions:
- A sparse-matrix object is represented by its identity, `MatrixRef := Nat`;
  Python reference comparison (the `is` operator) becomes equality of these
  identifiers, and two distinct objects with equal numerical content get
  distinct identifiers.  Python `None` is `Option.none`.
- Backend solve routines are opaque parameters; what the layer does with
  their results (caching, dispatch, reason mapping, diagnostics) is modelled
  exactly.
- Python exceptions become an explicit `PyExn` value in an `Except` result.
- `output(...)` diagnostic lines are collected as strings.
-/

/-- Identity of a matrix object; equality models the Python `is` operator. -/
abbrev MatrixRef := Nat

/-- Embeds sfepy get_default(arg, default): return arg if it is not None,
else the default (which may itself be None). -/
def get_default {α : Type} (arg dflt : Option α) : Option α :=
  match arg with
  | some a => some a
  | none => dflt

/-- Python exceptions raised by this layer. -/
inductive PyExn
  | valueError (msg : String)
  | keyError (key : String)
  | importError (msg : String)
deriving DecidableEq

/-- Observable outcome of try_imports: whether the target name got bound by
some successful import, and whether ValueError(fail_msg) was raised. -/
structure ImportsOutcome where
  bound : Bool
  raisedValueError : Bool
deriving DecidableEq

/-- Embeds try_imports(imports, fail_msg) from ls.py, where each list entry
records whether the corresponding exec of an import statement succeeds.
The source attaches the else-clause holding raise ValueError(fail_msg) to the
try-statement, not to the for-loop.  A try-statement else-clause runs only
when the try-suite finishes without an exception and without a break; here a
successful exec is immediately followed by break, and a failing exec enters
the bare except clause, so the else-clause is unreachable and the ValueError
is never raised. -/
def try_imports (imports : List Bool) (fail_msg : Option String) : ImportsOutcome :=
  match imports with
  | [] => { bound := false, raisedValueError := false }
  | ok :: rest =>
    if ok then { bound := true, raisedValueError := false }
    else try_imports rest fail_msg

/-- Configuration record produced by ScipyDirect.process_conf. -/
structure Conf where
  method : String
  presolve : Bool
  warn : Bool
  i_max : Option Int
  eps_a : Option Rat
  eps_r : Option Rat
deriving DecidableEq

/-- Runtime import environment probed by ScipyDirect.__init__: success of the
three sls import candidates, of the four umfpack candidates, and whether the
imported umfpack module has the UMFPACK_OK attribute. -/
structure ImportEnv where
  slsImports : List Bool
  umImports : List Bool
  umHasUmfpackOk : Bool
deriving DecidableEq

/-- State of a constructed ScipyDirect instance: the last use_solver setting
(none when use_solver was never called), the prefactorized closure tagged by
the matrix it factorized (self.solve), and the cached matrix (self.mtx). -/
structure DirectState where
  useUmfpack : Option Bool
  solve : Option MatrixRef
  mtx : Option MatrixRef
deriving DecidableEq

/-- Fail message of the sls import probe in ScipyDirect.__init__. -/
def slsFailMsg : String := "cannot import scipy sparse direct solvers!"

/-- Embeds the tail of ScipyDirect.__init__: self.solve stays None unless
presolve holds and a non-None matrix is stored, in which case it becomes the
factorized closure for that matrix. -/
def presolveClosure (conf : Conf) (mtx : Option MatrixRef) : Option MatrixRef :=
  if conf.presolve then mtx else none

/-- Embeds ScipyDirect.__init__(conf, mtx): probe the sls imports (aux is
consumed by self.sls = aux, a KeyError when no candidate bound sls), probe
the umfpack imports, compute is_umfpack, dispatch on conf.method in source
order (superlu / umfpack / unknown raises ValueError / auto), apply the final
use_solver(useUmfpack=True) step when method is not superlu and umfpack is
available, and set up the presolve closure. -/
def scipyDirectInitCore (conf : Conf) (env : ImportEnv) (mtx : Option MatrixRef) :
    Except PyExn (DirectState × List String) :=
  let auxSls := try_imports env.slsImports (some slsFailMsg)
  if auxSls.raisedValueError then Except.error (PyExn.valueError slsFailMsg)
  else if auxSls.bound then
    let auxUm := try_imports env.umImports none
    let is_umfpack := auxUm.bound && env.umHasUmfpackOk
    if conf.method = "superlu" then
      Except.ok ({ useUmfpack := some false, solve := presolveClosure conf mtx,
                   mtx := mtx }, [])
    else if conf.method = "umfpack" then
      Except.ok ({ useUmfpack := if is_umfpack then some true else none,
                   solve := presolveClosure conf mtx, mtx := mtx },
                 if !is_umfpack && conf.warn
                 then ["umfpack not available, using superlu!"] else [])
    else if conf.method ≠ "auto" then
      Except.error (PyExn.valueError ("uknown solution method! (" ++ conf.method ++ ")"))
    else
      Except.ok ({ useUmfpack := if is_umfpack then some true else none,
                   solve := presolveClosure conf mtx, mtx := mtx }, [])
  else Except.error (PyExn.keyError "sls")

/-- ScipyDirect construction together with the configuration record the
caller is left with; the constructor contains no assignment to conf. -/
def scipyDirectInit (conf : Conf) (env : ImportEnv) (mtx : Option MatrixRef) :
    Except PyExn (DirectState × List String) × Conf :=
  (scipyDirectInitCore conf env mtx, conf)

/-- Embeds Umfpack.__init__: it first executes conf.method = "umfpack",
mutating the caller-supplied configuration object, then delegates to
ScipyDirect.__init__ with that same (now mutated) object. -/
def umfpackInit (conf : Conf) (env : ImportEnv) (mtx : Option MatrixRef) :
    Except PyExn (DirectState × List String) × Conf :=
  scipyDirectInit { conf with method := "umfpack" } env mtx

/-- Result of ScipyDirect.__call__, tagged by which path produced it:
the prefactorized closure applied to rhs, or a one-shot spsolve on the
resolved matrix. -/
inductive SolveResult
  | closure (factorizedFrom : MatrixRef) (rhs : Nat)
  | spsolve (mtx : Option MatrixRef) (rhs : Nat)
deriving DecidableEq

/-- Embeds ScipyDirect.__call__(rhs, mtx, ...): resolve mtx with
get_default; if self.solve is set, return self.solve(rhs) ignoring the
matrix argument, else return self.sls.spsolve(mtx, rhs). -/
def scipyDirectCall (st : DirectState) (rhs : Nat) (mtxArg : Option MatrixRef) :
    SolveResult :=
  let mtx := get_default mtxArg st.mtx
  match st.solve with
  | some f => SolveResult.closure f rhs
  | none => SolveResult.spsolve mtx rhs

/-- Embeds nm.sign restricted to integers: 1 on positives, -1 on negatives,
0 at zero. -/
def nmSign (i : Int) : Int :=
  if 0 < i then 1 else if i < 0 then -1 else 0

/-- Embeds the converged_reasons dict built in ScipyIterative.__init__,
as a lookup returning none for keys absent from the dict. -/
def converged_reasons (k : Int) : Option String :=
  if k = 0 then some "successful exit"
  else if k = 1 then some "number of iterations"
  else if k = -1 then some "illegal input or breakdown"
  else none

/-- Configuration produced by ScipyIterative.process_conf, plus a warn flag
that a common configuration may carry; the constructor and call never read
warn. -/
structure IterConf where
  method : String
  i_max : Int
  eps_a : Option Rat
  eps_r : Rat
  warn : Bool
deriving DecidableEq

/-- Last-call diagnostic record that the spec exposes as status; this layer
never writes any field of it. -/
structure StatusRec where
  reason : Option String
deriving DecidableEq

/-- Embeds ScipyIterative.__init__ method resolution: getattr(la,
conf.method) raises AttributeError when the name is not in the module, the
except branch prints two diagnostic lines unconditionally and falls back to
la.cg.  The constructor never raises: its result is always ok. -/
def scipyIterativeInit (conf : IterConf) (registry : List String) :
    Except PyExn (String × List String) × IterConf :=
  (if conf.method ∈ registry then Except.ok (conf.method, [])
   else Except.ok ("cg",
     ["scipy solver " ++ conf.method ++ " does not exist!", "using cg instead"]),
   conf)

/-- Mutable per-instance state read by ScipyIterative.__call__. -/
structure IterState where
  mtx : Option MatrixRef
  status : Option StatusRec
deriving DecidableEq

/-- Observable outcome of one ScipyIterative.__call__. -/
structure IterCallResult where
  sol : Nat
  info : Int
  statusAfter : Option StatusRec
  outputLine : String
deriving DecidableEq

/-- Embeds ScipyIterative.__call__: resolve eps_r, i_max, mtx and status
with get_default (eps_a is accepted but the body never touches it), run the
backend routine with tol = eps_r and maxiter = i_max, print the diagnostic
line with the reason mapped through converged_reasons over nmSign, and
return the solution; status is resolved but never written. -/
def scipyIterativeCall
    (solver : Option MatrixRef → Nat → Option Nat → Rat → Int → Nat × Int)
    (conf : IterConf) (st : IterState) (rhs : Nat) (x0 : Option Nat)
    (eps_a eps_r : Option Rat) (i_max : Option Int)
    (mtxArg : Option MatrixRef) (statusArg : Option StatusRec) : IterCallResult :=
  let eps_rR := eps_r.getD conf.eps_r
  let i_maxR := i_max.getD conf.i_max
  let mtx := get_default mtxArg st.mtx
  let status := get_default statusArg st.status
  let out := solver mtx rhs x0 eps_rR i_maxR
  { sol := out.1, info := out.2, statusAfter := status,
    outputLine := conf.method ++ " convergence: " ++ toString out.2 ++ " ("
      ++ (converged_reasons (nmSign out.2)).getD "" ++ ")" }

/-- Configuration produced by PyAMGSolver.process_conf, plus the ignored
warn flag a common configuration may carry. -/
structure PyAMGConf where
  method : String
  accel : Option String
  eps_r : Rat
  warn : Bool
deriving DecidableEq

/-- State of a PyAMGSolver instance: the cached matrix (self.mtx) and the
cached hierarchy (self.mg), a built hierarchy being tagged by the matrix it
was built from. -/
structure PyAMGState where
  mtx : Option MatrixRef
  mg : Option (Option MatrixRef)
  status : Option StatusRec
deriving DecidableEq

/-- Embeds PyAMGSolver.__init__: ImportError when pyamg is absent; method
resolution through getattr with an unconditional two-line diagnostic and a
fallback to pyamg.smoothed_aggregation_solver on AttributeError; eager
hierarchy build when a non-None matrix is already stored. -/
def pyAMGInit (conf : PyAMGConf) (pyamgAvailable : Bool) (registry : List String)
    (mtx : Option MatrixRef) :
    Except PyExn (String × PyAMGState × List String) × PyAMGConf :=
  (if pyamgAvailable then
    let pick : String × List String :=
      if conf.method ∈ registry then (conf.method, [])
      else ("smoothed_aggregation_solver",
            ["pyamg." ++ conf.method ++ " does not exist!",
             "using pyamg.smoothed_aggregation_solver instead"])
    Except.ok (pick.1,
      { mtx := mtx, mg := if mtx.isSome then some mtx else none, status := none },
      pick.2)
  else Except.error (PyExn.importError "cannot import pyamg!"), conf)

/-- Observable outcome of one PyAMGSolver.__call__: the state after the
call, how many times the hierarchy was rebuilt during the call, the
hierarchy the solve ran with, the tolerance and acceleration passed to it,
and the resolved status record. -/
structure PyAMGCallResult where
  state : PyAMGState
  rebuilds : Nat
  solvedWith : Option (Option MatrixRef)
  tol : Rat
  accel : Option String
  statusAfter : Option StatusRec
deriving DecidableEq

/-- Embeds PyAMGSolver.__call__: resolve eps_r, mtx and status with
get_default; if self.mg is None or the resolved matrix is not identical (by
reference) to self.mtx, rebuild the hierarchy from the resolved matrix and
update self.mtx to it; then solve with the (possibly fresh) hierarchy. -/
def pyAMGCall (conf : PyAMGConf) (st : PyAMGState) (rhs : Nat) (x0 : Option Nat)
    (eps_a eps_r : Option Rat) (i_max : Option Int) (mtxArg : Option MatrixRef)
    (statusArg : Option StatusRec) : PyAMGCallResult :=
  let eps_rR := eps_r.getD conf.eps_r
  let mtx := get_default mtxArg st.mtx
  let status := get_default statusArg st.status
  let st1 := if st.mg = none ∨ mtx ≠ st.mtx
             then { st with mg := some mtx, mtx := mtx } else st
  { state := st1,
    rebuilds := if st.mg = none ∨ mtx ≠ st.mtx then 1 else 0,
    solvedWith := st1.mg,
    tol := eps_rR,
    accel := conf.accel,
    statusAfter := status }

/-- Configuration produced by PETScKrylovSolver.process_conf. -/
structure PETScConf where
  method : String
  precond : String
  i_max : Int
  eps_a : Rat
  eps_r : Rat
deriving DecidableEq

/-- State of a PETScKrylovSolver instance: cached matrix (self.mtx), native
matrix (self.pmtx) and native vectors (self.sol, self.rhs), each tagged by
the matrix set_matrix converted. -/
structure PETScState where
  mtx : Option MatrixRef
  pmtx : Option (Option MatrixRef)
  solVec : Option (Option MatrixRef)
  rhsVec : Option (Option MatrixRef)
  status : Option StatusRec
deriving DecidableEq

/-- Embeds PETScKrylovSolver.__init__: ImportError when petsc4py is absent;
eager set_matrix conversion and operator attachment when a non-None matrix
is already stored. -/
def petscInit (conf : PETScConf) (petscAvailable : Bool) (mtx : Option MatrixRef) :
    Except PyExn (PETScState × List String) × PETScConf :=
  (if petscAvailable then
    Except.ok (if mtx.isSome then
        { mtx := mtx, pmtx := some mtx, solVec := some mtx, rhsVec := some mtx,
          status := none }
      else { mtx := mtx, pmtx := none, solVec := none, rhsVec := none,
             status := none }, [])
  else Except.error (PyExn.importError "cannot import petsc4py!"), conf)

/-- Observable outcome of one PETScKrylovSolver.__call__. -/
structure PETScCallResult where
  state : PETScState
  rebuilds : Nat
  atol : Rat
  rtol : Rat
  max_it : Int
  statusAfter : Option StatusRec
  outputLine : String
deriving DecidableEq

/-- Embeds PETScKrylovSolver.__call__: resolve tolerances, mtx and status
with get_default; if self.pmtx is None or the resolved matrix is not
identical (by reference) to self.mtx, reconvert through set_matrix (native
matrix and both native vectors), reattach the operators and update
self.mtx; set tolerances, solve, and print the diagnostic line with
ksp.reason mapped through the adapter reason table; status is resolved but
never written. -/
def petscCall (conf : PETScConf) (reasonName : Int → String) (reason : Int)
    (st : PETScState) (rhs : Nat) (x0 : Option Nat) (eps_a eps_r : Option Rat)
    (i_max : Option Int) (mtxArg : Option MatrixRef)
    (statusArg : Option StatusRec) : PETScCallResult :=
  let eps_aR := eps_a.getD conf.eps_a
  let eps_rR := eps_r.getD conf.eps_r
  let i_maxR := i_max.getD conf.i_max
  let mtx := get_default mtxArg st.mtx
  let status := get_default statusArg st.status
  let st1 := if st.pmtx = none ∨ mtx ≠ st.mtx
             then { st with pmtx := some mtx, solVec := some mtx,
                            rhsVec := some mtx, mtx := mtx }
             else st
  { state := st1,
    rebuilds := if st.pmtx = none ∨ mtx ≠ st.mtx then 1 else 0,
    atol := eps_aR, rtol := eps_rR, max_it := i_maxR,
    statusAfter := status,
    outputLine := conf.method ++ "(" ++ conf.precond ++ ") convergence: "
      ++ toString reason ++ " (" ++ reasonName reason ++ ")" }

/-- Helper: try_imports binds the name exactly when some candidate import
succeeds, and it never raises the fail message. -/
theorem try_imports_spec (l : List Bool) (msg : Option String) :
    try_imports l msg = { bound := l.any id, raisedValueError := false } := by
  induction l with
  | nil => rfl
  | cons a t ih => cases a <;> simp [try_imports, ih]

/-- Import environment where only the third sls candidate succeeds and
umfpack is absent. -/
def envSlsOnly : ImportEnv :=
  { slsImports := [false, false, true],
    umImports := [false, false, false, false], umHasUmfpackOk := false }

/-- Import environment where every candidate import fails. -/
def envNone : ImportEnv :=
  { slsImports := [false, false, false],
    umImports := [false, false, false, false], umHasUmfpackOk := false }

/-- Direct-solver configuration with the auto method and the defaults. -/
def confAuto : Conf :=
  { method := "auto", presolve := false, warn := true,
    i_max := none, eps_a := none, eps_r := none }

/-- Direct-solver configuration asking for the unknown method bogus. -/
def confBogus : Conf :=
  { method := "bogus", presolve := false, warn := true,
    i_max := none, eps_a := none, eps_r := none }

/-- Direct-solver configuration asking for umfpack. -/
def confUmf : Conf :=
  { method := "umfpack", presolve := false, warn := true,
    i_max := none, eps_a := none, eps_r := none }

/-- Direct-solver configuration with presolve switched on. -/
def confPre : Conf :=
  { method := "auto", presolve := true, warn := true,
    i_max := none, eps_a := none, eps_r := none }

/-- Iterative configuration with an unknown method and warn off. -/
def iterConfBogusNoWarn : IterConf :=
  { method := "bogus", i_max := 100, eps_a := none, eps_r := 0, warn := false }

/-- Iterative configuration with the default cg method. -/
def iterConfW : IterConf :=
  { method := "cg", i_max := 100, eps_a := none, eps_r := 0, warn := true }

/-- Multigrid configuration with an unknown method and warn off. -/
def amgConfBogusNoWarn : PyAMGConf :=
  { method := "bogus", accel := none, eps_r := 0, warn := false }

/-- Multigrid configuration with the default method. -/
def amgConfW : PyAMGConf :=
  { method := "smoothed_aggregation_solver", accel := none, eps_r := 0, warn := true }

/-- Distributed-Krylov configuration with the defaults. -/
def petscConfW : PETScConf :=
  { method := "cg", precond := "icc", i_max := 100, eps_a := 0, eps_r := 0 }

/-- Names the PETSc ConvergedReason table entries; opaque to this layer. -/
def reasonNameW : Int → String := fun i => toString i

/-- Available Krylov routine names in the scipy isolve module. -/
def krylovRegistry : List String :=
  ["cg", "cgs", "gmres", "bicg", "bicgstab", "qmr", "minres"]

/-- Available hierarchy constructors in the pyamg module. -/
def pyamgRegistry : List String :=
  ["ruge_stuben_solver", "smoothed_aggregation_solver"]

/-- Backend routine that returns solution 42 with outcome 0. -/
def constSolver : Option MatrixRef → Nat → Option Nat → Rat → Int → Nat × Int :=
  fun _ _ _ _ _ => (42, 0)

/-- Extracts the reason stored in a status record, if any. -/
def statusReason (s : Option StatusRec) : Option String :=
  match s with
  | some r => r.reason
  | none => none

/-- C1: for PyAMGSolver and PETScKrylovSolver, a solve call that finds a
cached setup and a matrix identical by reference to the cached one leaves
the state untouched and rebuilds nothing; a call that finds no setup or a
distinct matrix object rebuilds the setup exactly once from the resolved
matrix, updates the cached matrix reference to it, and solves with the
fresh setup. -/
theorem C1_cache_identity_reuse
    (aconf : PyAMGConf) (ast : PyAMGState) (pconf : PETScConf) (pst : PETScState)
    (reasonName : Int → String) (reason : Int) (rhs : Nat) (x0 : Option Nat)
    (eps_a eps_r : Option Rat) (i_max : Option Int) (mtxArg : Option MatrixRef)
    (statusArg : Option StatusRec) :
    (ast.mg ≠ none → get_default mtxArg ast.mtx = ast.mtx →
      (pyAMGCall aconf ast rhs x0 eps_a eps_r i_max mtxArg statusArg).state = ast ∧
      (pyAMGCall aconf ast rhs x0 eps_a eps_r i_max mtxArg statusArg).rebuilds = 0) ∧
    ((ast.mg = none ∨ get_default mtxArg ast.mtx ≠ ast.mtx) →
      (pyAMGCall aconf ast rhs x0 eps_a eps_r i_max mtxArg statusArg).rebuilds = 1 ∧
      (pyAMGCall aconf ast rhs x0 eps_a eps_r i_max mtxArg statusArg).state.mtx
        = get_default mtxArg ast.mtx ∧
      (pyAMGCall aconf ast rhs x0 eps_a eps_r i_max mtxArg statusArg).state.mg
        = some (get_default mtxArg ast.mtx) ∧
      (pyAMGCall aconf ast rhs x0 eps_a eps_r i_max mtxArg statusArg).solvedWith
        = some (get_default mtxArg ast.mtx)) ∧
    (pst.pmtx ≠ none → get_default mtxArg pst.mtx = pst.mtx →
      (petscCall pconf reasonName reason pst rhs x0 eps_a eps_r i_max mtxArg
        statusArg).state = pst ∧
      (petscCall pconf reasonName reason pst rhs x0 eps_a eps_r i_max mtxArg
        statusArg).rebuilds = 0) ∧
    ((pst.pmtx = none ∨ get_default mtxArg pst.mtx ≠ pst.mtx) →
      (petscCall pconf reasonName reason pst rhs x0 eps_a eps_r i_max mtxArg
        statusArg).rebuilds = 1 ∧
      (petscCall pconf reasonName reason pst rhs x0 eps_a eps_r i_max mtxArg
        statusArg).state.mtx = get_default mtxArg pst.mtx ∧
      (petscCall pconf reasonName reason pst rhs x0 eps_a eps_r i_max mtxArg
        statusArg).state.pmtx = some (get_default mtxArg pst.mtx) ∧
      (petscCall pconf reasonName reason pst rhs x0 eps_a eps_r i_max mtxArg
        statusArg).state.solVec = some (get_default mtxArg pst.mtx) ∧
      (petscCall pconf reasonName reason pst rhs x0 eps_a eps_r i_max mtxArg
        statusArg).state.rhsVec = some (get_default mtxArg pst.mtx)) := by
  refine ⟨?_, ?_, ?_, ?_⟩
  · intro h1 h2
    have hc : ¬ (ast.mg = none ∨ get_default mtxArg ast.mtx ≠ ast.mtx) := by
      push_neg
      exact ⟨h1, h2⟩
    simp [pyAMGCall, if_neg hc]
  · intro h
    simp [pyAMGCall, if_pos h]
  · intro h1 h2
    have hc : ¬ (pst.pmtx = none ∨ get_default mtxArg pst.mtx ≠ pst.mtx) := by
      push_neg
      exact ⟨h1, h2⟩
    simp [petscCall, if_neg hc]
  · intro h
    simp [petscCall, if_pos h]

/-- C1 witness: concrete reuse and rebuild calls for both adapters. -/
theorem C1_cache_identity_reuse_witness :
    (pyAMGCall amgConfW { mtx := some 1, mg := some (some 1), status := none }
      5 none none none none (some 1) none).rebuilds = 0 ∧
    (pyAMGCall amgConfW { mtx := some 1, mg := some (some 1), status := none }
      5 none none none none (some 2) none).rebuilds = 1 ∧
    (pyAMGCall amgConfW { mtx := some 1, mg := some (some 1), status := none }
      5 none none none none (some 2) none).state.mtx = some 2 ∧
    (petscCall petscConfW reasonNameW 0
      { mtx := some 1, pmtx := some (some 1), solVec := some (some 1),
        rhsVec := some (some 1), status := none }
      5 none none none none (some 1) none).rebuilds = 0 ∧
    (petscCall petscConfW reasonNameW 0
      { mtx := some 1, pmtx := some (some 1), solVec := some (some 1),
        rhsVec := some (some 1), status := none }
      5 none none none none (some 2) none).rebuilds = 1 := by
  have hA := C1_cache_identity_reuse amgConfW
    { mtx := some 1, mg := some (some 1), status := none } petscConfW
    { mtx := some 1, pmtx := some (some 1), solVec := some (some 1),
      rhsVec := some (some 1), status := none }
    reasonNameW 0 5 none none none none (some 1) none
  have hB := C1_cache_identity_reuse amgConfW
    { mtx := some 1, mg := some (some 1), status := none } petscConfW
    { mtx := some 1, pmtx := some (some 1), solVec := some (some 1),
      rhsVec := some (some 1), status := none }
    reasonNameW 0 5 none none none none (some 2) none
  refine ⟨(hA.1 (by decide) (by decide)).2, (hB.2.1 (Or.inr (by decide))).1,
    (hB.2.1 (Or.inr (by decide))).2.1, (hA.2.2.1 (by decide) (by decide)).2,
    (hB.2.2.2 (Or.inr (by decide))).1⟩

/-- C2 counterexample: a concrete ScipyIterative solve call whose backend
outcome is 0 (mapped reason successful exit) leaves the caller-supplied
status record untouched, with no reason stored in it: the mapped
ConvergedReason is not retrievable through the status record after the
call. -/
theorem C2_status_counterexample :
    converged_reasons (nmSign (scipyIterativeCall constSolver iterConfW
      { mtx := some 1, status := none } 3 none none none none none
      (some { reason := none })).info) = some "successful exit" ∧
    (scipyIterativeCall constSolver iterConfW
      { mtx := some 1, status := none } 3 none none none none none
      (some { reason := none })).statusAfter = some { reason := none } ∧
    statusReason ((scipyIterativeCall constSolver iterConfW
      { mtx := some 1, status := none } 3 none none none none none
      (some { reason := none })).statusAfter) ≠ some "successful exit" := by
  refine ⟨rfl, rfl, ?_⟩
  intro h
  exact Option.noConfusion h

/-- C2 (amended): the ScipyIterative and PETScKrylovSolver solve calls
resolve the status argument with get_default but never write to it — the
mapped convergence reason goes only into the printed diagnostic line — so
after every call the status record equals the resolved input record, with
no diagnostic stored by the call. -/
theorem C2_status_never_written
    (solver : Option MatrixRef → Nat → Option Nat → Rat → Int → Nat × Int)
    (conf : IterConf) (st : IterState) (pconf : PETScConf)
    (reasonName : Int → String) (reason : Int) (pst : PETScState)
    (rhs : Nat) (x0 : Option Nat) (eps_a eps_r : Option Rat) (i_max : Option Int)
    (mtxArg : Option MatrixRef) (statusArg : Option StatusRec) :
    (scipyIterativeCall solver conf st rhs x0 eps_a eps_r i_max mtxArg
      statusArg).statusAfter = get_default statusArg st.status ∧
    (petscCall pconf reasonName reason pst rhs x0 eps_a eps_r i_max mtxArg
      statusArg).statusAfter = get_default statusArg pst.status :=
  ⟨rfl, rfl⟩

/-- C3: the ScipyIterative mapping of the raw backend outcome through
nm.sign and the converged_reasons table is total over all integers and
deterministic: outcome 0 maps to successful exit, every positive outcome to
number of iterations, and every negative outcome to illegal input or
breakdown. -/
theorem C3_reason_mapping_total (info : Int) :
    (converged_reasons (nmSign info)).isSome = true ∧
    (info = 0 → converged_reasons (nmSign info) = some "successful exit") ∧
    (0 < info → converged_reasons (nmSign info) = some "number of iterations") ∧
    (info < 0 → converged_reasons (nmSign info) = some "illegal input or breakdown") := by
  refine ⟨?_, ?_, ?_, ?_⟩
  · rcases lt_trichotomy info 0 with h | h | h
    · simp [nmSign, converged_reasons, h, show ¬ 0 < info by omega]
    · simp [nmSign, converged_reasons, h]
    · simp [nmSign, converged_reasons, h]
  · intro h
    simp [nmSign, converged_reasons, h]
  · intro h
    simp [nmSign, converged_reasons, h]
  · intro h
    simp [nmSign, converged_reasons, h, show ¬ 0 < info by omega]

/-- C3 witness: the mapping at the concrete outcomes 0, 7 and -3. -/
theorem C3_reason_mapping_total_witness :
    converged_reasons (nmSign 0) = some "successful exit" ∧
    converged_reasons (nmSign 7) = some "number of iterations" ∧
    converged_reasons (nmSign (-3)) = some "illegal input or breakdown" :=
  ⟨(C3_reason_mapping_total 0).2.1 rfl,
   (C3_reason_mapping_total 7).2.2.1 (by decide),
   (C3_reason_mapping_total (-3)).2.2.2 (by decide)⟩

/-- C4: with a sparse-direct backend importable, constructing ScipyDirect
with method auto, superlu or umfpack succeeds, and any method outside that
set raises the unknown solution method ValueError. -/
theorem C4_direct_method_validation (conf : Conf) (env : ImportEnv)
    (mtx : Option MatrixRef) (hsls : env.slsImports.any id = true) :
    ((conf.method = "auto" ∨ conf.method = "superlu" ∨ conf.method = "umfpack") →
      ∃ st outs, scipyDirectInitCore conf env mtx = Except.ok (st, outs)) ∧
    (conf.method ≠ "auto" → conf.method ≠ "superlu" → conf.method ≠ "umfpack" →
      scipyDirectInitCore conf env mtx
        = Except.error (PyExn.valueError
            ("uknown solution method! (" ++ conf.method ++ ")"))) := by
  have he2 : try_imports env.slsImports (some slsFailMsg)
      = { bound := true, raisedValueError := false } := by
    rw [try_imports_spec, hsls]
  constructor
  · rintro (h | h | h) <;>
      · simp only [scipyDirectInitCore, he2]
        simp [h]
  · intro h1 h2 h3
    simp [scipyDirectInitCore, he2, h1, h2, h3]

/-- C4 witness: the accepted method auto succeeds and the unknown method
bogus raises the configuration ValueError, in the environment where the
third sls import candidate is available. -/
theorem C4_direct_method_validation_witness :
    scipyDirectInitCore confBogus envSlsOnly none
      = Except.error (PyExn.valueError
          ("uknown solution method! (" ++ confBogus.method ++ ")")) ∧
    (scipyDirectInitCore confAuto envSlsOnly none).isOk = true := by
  constructor
  · exact (C4_direct_method_validation confBogus envSlsOnly none
      (by decide)).2 (by decide) (by decide) (by decide)
  · obtain ⟨st, outs, h⟩ := (C4_direct_method_validation confAuto envSlsOnly none
      (by decide)).1 (Or.inl rfl)
    rw [h]
    rfl

/-- C5: when every sparse-direct import candidate fails, ScipyDirect
construction does not raise the configured capability-unavailable
ValueError: the else-clause of the try-statement inside try_imports is dead
code, so try_imports never raises for any input, and construction instead
fails with a KeyError on the sls lookup. -/
theorem C5_capability_error_is_keyerror :
    scipyDirectInitCore confAuto envNone none = Except.error (PyExn.keyError "sls") ∧
    scipyDirectInitCore confAuto envNone none
      ≠ Except.error (PyExn.valueError slsFailMsg) ∧
    (try_imports [false, false, false] (some slsFailMsg)).raisedValueError = false := by
  refine ⟨rfl, ?_, rfl⟩
  intro h
  rw [show scipyDirectInitCore confAuto envNone none
    = Except.error (PyExn.keyError "sls") from rfl] at h
  exact PyExn.noConfusion (Except.error.inj h)

/-- C6 counterexample: constructing the legacy Umfpack adapter with a
configuration whose method is auto leaves the caller-supplied
configuration record changed — its method field has become umfpack. -/
theorem C6_conf_mutation_counterexample :
    (umfpackInit confAuto envSlsOnly none).2 ≠ confAuto := by
  decide

/-- C6 (amended): every adapter constructor leaves the supplied
configuration record unchanged, except the legacy Umfpack compatibility
class, whose constructor overwrites conf.method with umfpack before
delegating to ScipyDirect. -/
theorem C6_conf_preservation (conf : Conf) (iconf : IterConf) (aconf : PyAMGConf)
    (pconf : PETScConf) (env : ImportEnv) (registryI registryA : List String)
    (amgAvail petscAvail : Bool) (mtx : Option MatrixRef) :
    (scipyDirectInit conf env mtx).2 = conf ∧
    (scipyIterativeInit iconf registryI).2 = iconf ∧
    (pyAMGInit aconf amgAvail registryA mtx).2 = aconf ∧
    (petscInit pconf petscAvail mtx).2 = pconf ∧
    (umfpackInit conf env mtx).2 = { conf with method := "umfpack" } :=
  ⟨rfl, rfl, rfl, rfl, rfl⟩

/-- C7 counterexample: with configurations whose warn flag is off,
constructing the iterative adapter with an unknown method still emits the
two substitution warning lines, and so does the multigrid adapter: the
warning is not gated by the configuration. -/
theorem C7_warn_gating_counterexample :
    iterConfBogusNoWarn.warn = false ∧
    (scipyIterativeInit iterConfBogusNoWarn krylovRegistry).1
      = Except.ok ("cg",
          ["scipy solver bogus does not exist!", "using cg instead"]) ∧
    amgConfBogusNoWarn.warn = false ∧
    (pyAMGInit amgConfBogusNoWarn true pyamgRegistry none).1
      = Except.ok ("smoothed_aggregation_solver",
          { mtx := none, mg := none, status := none },
          ["pyamg.bogus does not exist!",
           "using pyamg.smoothed_aggregation_solver instead"]) := by
  exact ⟨rfl, rfl, rfl, rfl⟩

/-- C7 (amended): constructing the iterative adapter with a method name not
in the Krylov registry never raises and substitutes cg, and the multigrid
adapter with an unknown method substitutes smoothed_aggregation_solver; in
both cases the substitution warning lines are emitted unconditionally,
whatever warn flag the configuration carries. -/
theorem C7_unknown_method_fallback (iconf : IterConf) (aconf : PyAMGConf)
    (registryI registryA : List String) (mtx : Option MatrixRef)
    (hI : iconf.method ∉ registryI) (hA : aconf.method ∉ registryA) :
    (scipyIterativeInit iconf registryI).1
      = Except.ok ("cg",
          ["scipy solver " ++ iconf.method ++ " does not exist!",
           "using cg instead"]) ∧
    (pyAMGInit aconf true registryA mtx).1
      = Except.ok ("smoothed_aggregation_solver",
          { mtx := mtx, mg := if mtx.isSome then some mtx else none,
            status := none },
          ["pyamg." ++ aconf.method ++ " does not exist!",
           "using pyamg.smoothed_aggregation_solver instead"]) := by
  constructor
  · simp [scipyIterativeInit, hI]
  · simp [pyAMGInit, hA]

/-- C7 witness: concrete unknown-method constructions for both adapters. -/
theorem C7_unknown_method_fallback_witness :
    (scipyIterativeInit iterConfBogusNoWarn krylovRegistry).1
      = Except.ok ("cg",
          ["scipy solver " ++ iterConfBogusNoWarn.method ++ " does not exist!",
           "using cg instead"]) ∧
    (pyAMGInit amgConfBogusNoWarn true pyamgRegistry none).1
      = Except.ok ("smoothed_aggregation_solver",
          { mtx := none, mg := none, status := none },
          ["pyamg." ++ amgConfBogusNoWarn.method ++ " does not exist!",
           "using pyamg.smoothed_aggregation_solver instead"]) :=
  C7_unknown_method_fallback iterConfBogusNoWarn amgConfBogusNoWarn
    krylovRegistry pyamgRegistry none (by decide) (by decide)

/-- C8: constructing ScipyDirect with method umfpack when the umfpack
capability is unavailable does not raise: construction succeeds, the
umfpack backend is never switched on, and the superlu-fallback notice is
emitted if and only if conf.warn is set. -/
theorem C8_umfpack_fallback (conf : Conf) (env : ImportEnv) (mtx : Option MatrixRef)
    (hsls : env.slsImports.any id = true) (hm : conf.method = "umfpack")
    (hum : (env.umImports.any id && env.umHasUmfpackOk) = false) :
    scipyDirectInitCore conf env mtx
      = Except.ok ({ useUmfpack := none, solve := presolveClosure conf mtx,
                     mtx := mtx },
                   if conf.warn then ["umfpack not available, using superlu!"]
                   else []) ∧
    (∀ st outs, scipyDirectInitCore conf env mtx = Except.ok (st, outs) →
      ("umfpack not available, using superlu!" ∈ outs ↔ conf.warn = true)) := by
  have he2 : try_imports env.slsImports (some slsFailMsg)
      = { bound := true, raisedValueError := false } := by
    rw [try_imports_spec, hsls]
  have hu2 : try_imports env.umImports none
      = { bound := env.umImports.any id, raisedValueError := false } :=
    try_imports_spec env.umImports none
  have h1 : scipyDirectInitCore conf env mtx
      = Except.ok ({ useUmfpack := none, solve := presolveClosure conf mtx,
                     mtx := mtx },
                   if conf.warn then ["umfpack not available, using superlu!"]
                   else []) := by
    rcases Bool.and_eq_false_iff.mp hum with h | h <;>
      simp [scipyDirectInitCore, he2, hu2, hm, h]
  refine ⟨h1, ?_⟩
  intro st outs h
  have h2 := h1.symm.trans h
  simp only [Except.ok.injEq, Prod.mk.injEq] at h2
  rw [← h2.2]
  cases hw : conf.warn <;> simp [hw]

/-- C8 witness: umfpack requested in an environment without umfpack, with
warn on. -/
theorem C8_umfpack_fallback_witness :
    scipyDirectInitCore confUmf envSlsOnly none
      = Except.ok ({ useUmfpack := none, solve := presolveClosure confUmf none,
                     mtx := none },
                   if confUmf.warn then ["umfpack not available, using superlu!"]
                   else []) :=
  (C8_umfpack_fallback confUmf envSlsOnly none (by decide) rfl (by decide)).1

/-- C9: when the prefactorized closure exists, every ScipyDirect solve call
returns the closure applied to the right-hand side, independent of the
matrix argument passed to the call; when no closure exists, the call is a
one-shot factorize-and-solve on the resolved matrix; and construction with
presolve set and a matrix supplied stores the closure for that matrix. -/
theorem C9_presolve_dispatch (st : DirectState) (rhs : Nat)
    (m1 m2 : Option MatrixRef) (conf : Conf) (env : ImportEnv) (r : MatrixRef)
    (stOut : DirectState) (outs : List String) :
    (∀ f, st.solve = some f →
      scipyDirectCall st rhs m1 = SolveResult.closure f rhs ∧
      scipyDirectCall st rhs m1 = scipyDirectCall st rhs m2) ∧
    (st.solve = none →
      scipyDirectCall st rhs m1 = SolveResult.spsolve (get_default m1 st.mtx) rhs) ∧
    (conf.presolve = true →
      scipyDirectInitCore conf env (some r) = Except.ok (stOut, outs) →
      stOut.solve = some r) := by
  refine ⟨?_, ?_, ?_⟩
  · intro f hf
    constructor <;> simp [scipyDirectCall, hf]
  · intro hf
    simp [scipyDirectCall, hf]
  · intro hp h
    unfold scipyDirectInitCore at h
    repeat' split at h
    all_goals
      cases hsr : (try_imports env.slsImports (some slsFailMsg)).raisedValueError <;>
        simp only [hsr] at h <;>
        cases hsb : (try_imports env.slsImports (some slsFailMsg)).bound <;>
          simp only [hsb] at h
    all_goals simp_all [presolveClosure]
    all_goals
      obtain ⟨h1, h2⟩ := h
      subst h1
      rfl

/-- C9 witness: a closure-carrying instance answers from the closure for
two different matrix arguments, a closure-free instance dispatches to
spsolve, and a presolve construction stores the closure. -/
theorem C9_presolve_dispatch_witness :
    scipyDirectCall { useUmfpack := none, solve := some 4, mtx := some 4 } 9 (some 5)
      = SolveResult.closure 4 9 ∧
    scipyDirectCall { useUmfpack := none, solve := some 4, mtx := some 4 } 9 (some 5)
      = scipyDirectCall { useUmfpack := none, solve := some 4, mtx := some 4 } 9 (some 6) ∧
    scipyDirectCall { useUmfpack := none, solve := none, mtx := some 4 } 9 (some 5)
      = SolveResult.spsolve (get_default (some 5) (some 4)) 9 ∧
    ({ useUmfpack := none, solve := some 4, mtx := some 4 } : DirectState).solve
      = some 4 := by
  have hc := C9_presolve_dispatch
    { useUmfpack := none, solve := some 4, mtx := some 4 } 9 (some 5) (some 6)
    confPre envSlsOnly 4 { useUmfpack := none, solve := some 4, mtx := some 4 } []
  have hn := C9_presolve_dispatch
    { useUmfpack := none, solve := none, mtx := some 4 } 9 (some 5) (some 6)
    confPre envSlsOnly 4 { useUmfpack := none, solve := some 4, mtx := some 4 } []
  exact ⟨(hc.1 4 rfl).1, (hc.1 4 rfl).2, hn.2.1 rfl,
    hc.2.2 rfl rfl⟩

/-- C10: the result of a ScipyIterative solve call is independent of the
eps_a argument: two calls identical except for eps_a coincide, since only
eps_r is forwarded to the backend routine as its tolerance and eps_a is
accepted but never used. -/
theorem C10_eps_a_independence
    (solver : Option MatrixRef → Nat → Option Nat → Rat → Int → Nat × Int)
    (conf : IterConf) (st : IterState) (rhs : Nat) (x0 : Option Nat)
    (a1 a2 eps_r : Option Rat) (i_max : Option Int)
    (mtxArg : Option MatrixRef) (statusArg : Option StatusRec) :
    scipyIterativeCall solver conf st rhs x0 a1 eps_r i_max mtxArg statusArg
      = scipyIterativeCall solver conf st rhs x0 a2 eps_r i_max mtxArg statusArg :=
  rfl
